import Mathlib

/-!
Verification of the "Living Trust & NGO Management" backend
(`main.py`, `schemas.py`) against its natural-language specification.

The repository is a FastAPI application: eight flat pydantic record schemas,
generic list/create endpoints keyed by a collection-name lookup table, a
dashboard summary aggregation and a best-effort database diagnostic endpoint.
Persistence (`database.py`, not part of the sources) is an external
collaborator; where its behaviour matters it is modelled from the spec and
marked as such.

JSON-ish runtime values are embedded as `Value` (numbers as exact rationals),
records as insertion-ordered association lists, fallible request handlers as
`Except HTTPErr`.
-/

set_option maxHeartbeats 1000000

namespace TrustBackend

/-- A JSON-ish runtime value as handled by the endpoints.  Numbers are
modelled as exact rationals; `vId` is an opaque persistence-layer identifier
(a MongoDB `ObjectId`, carried with its hex rendering). -/
inductive Value where
  | vNull
  | vBool (b : Bool)
  | vNum (q : ℚ)
  | vStr (s : String)
  | vStrList (l : List String)
  | vId (hex : String)
deriving DecidableEq, Repr

/-- A record / document: an insertion-ordered association list with unique
keys, as a Python `dict` seen through JSON. -/
abbrev Doc := List (String × Value)

/-- Python `collection.lower()`: lowercase each character (collection names
are ASCII, where CPython's `str.lower` and `Char.toLower` agree). -/
def pyLower (s : String) : String :=
  ⟨s.data.map Char.toLower⟩

/-- Python `d[k] = v` on a dict: replaces the value at `k` keeping the key's
position if present, otherwise appends the pair at the end. -/
def setKey : Doc → String → Value → Doc
  | [], k, v => [(k, v)]
  | (k', v') :: rest, k, v =>
      if k' = k then (k, v) :: rest else (k', v') :: setKey rest k v

/-- Python `d.get(k, dflt)`. -/
def dGet (d : Doc) (k : String) (dflt : Value) : Value :=
  (List.lookup k d).getD dflt

/-- Python truthiness of a value (`None`, `False`, `0`, `""`, `[]` are
falsy). -/
def isFalsy : Value → Bool
  | .vNull => true
  | .vBool b => !b
  | .vNum q => q == 0
  | .vStr s => s.isEmpty
  | .vStrList l => l.isEmpty
  | .vId _ => false

/-- Python `x or 0` (the literal `0` is falsy, so the result is `x` when `x`
is truthy and `0` otherwise). -/
def pyOrZero (v : Value) : Value :=
  if isFalsy v then .vNum 0 else v

/-- Python `str(...)` rendering.  Only the rendering of identifiers
(`str(ObjectId)` = its hex string) is observable through the endpoints; the
other branches approximate CPython's `str`. -/
def pyStr : Value → String
  | .vNull => "None"
  | .vBool b => if b then "True" else "False"
  | .vNum q => toString q
  | .vStr s => s
  | .vStrList l => toString l
  | .vId hex => hex

/-- Value of a non-empty all-digit character list, `none` otherwise. -/
def digitsVal (cs : List Char) : Option Nat :=
  if cs ≠ [] ∧ cs.all Char.isDigit then
    some (cs.foldl (fun a c => a * 10 + (c.toNat - 48)) 0)
  else none

/-- Value of a possibly-empty all-digit character list (empty reads as 0),
`none` on a non-digit. -/
def digitsVal0 (cs : List Char) : Option Nat :=
  if cs.all Char.isDigit then
    some (cs.foldl (fun a c => a * 10 + (c.toNat - 48)) 0)
  else none

/-- Python `float(s)` on a string: optional sign, then either an integer
literal or a decimal literal with at least one digit (`"1."` and `".5"`
parse).  Exponents, `inf` and `nan` are not modelled; no value of those
shapes reaches `float` in the claims considered. -/
def parseRat (s : String) : Option ℚ :=
  let t := s.trim
  let (sign, body) : ℚ × String :=
    if t.startsWith "-" then (-1, t.drop 1)
    else if t.startsWith "+" then (1, t.drop 1) else (1, t)
  match body.splitOn "." with
  | [ip] => (digitsVal ip.toList).map (fun n => sign * (n : ℚ))
  | [ip, fp] =>
      if ip.isEmpty ∧ fp.isEmpty then none
      else
        match digitsVal0 ip.toList, digitsVal0 fp.toList with
        | some n, some f =>
            some (sign * ((n : ℚ) + (f : ℚ) / ((10 : ℚ) ^ fp.length)))
        | _, _ => none
  | _ => none

/-- Python `float(x)`: numbers pass through, `True`/`False` count as 1/0,
numeric strings parse, everything else raises. -/
def pyFloat : Value → Except String ℚ
  | .vNum q => .ok q
  | .vBool b => .ok (if b then 1 else 0)
  | .vStr s =>
      match parseRat s with
      | some q => .ok q
      | none => .error ("could not convert string to float: " ++ s)
  | .vNull => .error "float() argument must be a string or a real number, not NoneType"
  | .vStrList _ => .error "float() argument must be a string or a real number, not list"
  | .vId _ => .error "float() argument must be a string or a real number, not ObjectId"

/-! ### Schema Registry (`schemas.py`)

Each pydantic model is embedded as its list of field declarations; pydantic
validation (`Model(**payload)` with the default `extra='ignore'`
configuration) is embedded as `validateModel`. -/

def isLeapYear (y : Nat) : Bool :=
  (y % 4 == 0 && y % 100 != 0) || y % 400 == 0

def daysInMonth (y m : Nat) : Nat :=
  if m == 2 then (if isLeapYear y then 29 else 28)
  else if m == 4 || m == 6 || m == 9 || m == 11 then 30
  else 31

/-- Acceptance of a string by the `date` field type, for the primary
`YYYY-MM-DD` wire format pydantic parses. -/
def isIsoDate (s : String) : Bool :=
  match s.splitOn "-" with
  | [ys, ms, ds] =>
      match digitsVal ys.toList, digitsVal ms.toList, digitsVal ds.toList with
      | some y, some m, some d =>
          ys.length == 4 && ms.length == 2 && ds.length == 2 &&
          1 ≤ m && m ≤ 12 && 1 ≤ d && d ≤ daysInMonth y m
      | _, _, _ => false
  | _ => false

/-- The type (and numeric-range constraints) of one pydantic field. -/
inductive FieldType where
  | fStr
  | fFloat (ge le : Option ℚ)
  | fDate
  | fStrList
deriving DecidableEq, Repr

/-- One field declaration of a pydantic model: its name, type and whether it
is required (`Field(...)`) or optional (`Optional[...] = Field(None, ...)`). -/
structure FieldSpec where
  name : String
  ty : FieldType
  required : Bool
deriving DecidableEq, Repr

/-- Check the declared `ge`/`le` numeric bounds at a field. -/
def checkBounds (fname : String) (ge le : Option ℚ) (q : ℚ) :
    Except String Unit :=
  match ge with
  | some lo =>
      if q < lo then
        .error (fname ++ ": input should be greater than or equal to " ++ toString lo)
      else
        match le with
        | some hi =>
            if hi < q then
              .error (fname ++ ": input should be less than or equal to " ++ toString hi)
            else .ok ()
        | none => .ok ()
  | none =>
      match le with
      | some hi =>
          if hi < q then
            .error (fname ++ ": input should be less than or equal to " ++ toString hi)
          else .ok ()
      | none => .ok ()

/-- pydantic validation of one declared field against the payload: a missing
or `None` value is an error for a required field and reads as `None` for an
optional one; a present value must match the declared type and bounds.
Undeclared payload keys are never consulted (`extra='ignore'`). -/
def validateField (p : Doc) (f : FieldSpec) : Except String (String × Value) :=
  match List.lookup f.name p with
  | none =>
      if f.required then .error (f.name ++ ": field required")
      else .ok (f.name, .vNull)
  | some .vNull =>
      if f.required then .error (f.name ++ ": none is not an allowed value")
      else .ok (f.name, .vNull)
  | some v =>
      match f.ty, v with
      | .fStr, .vStr s => .ok (f.name, .vStr s)
      | .fFloat ge le, .vNum q =>
          match checkBounds f.name ge le q with
          | .error e => .error e
          | .ok _ => .ok (f.name, .vNum q)
      | .fDate, .vStr s =>
          if isIsoDate s then .ok (f.name, .vStr s)
          else .error (f.name ++ ": invalid date format")
      | .fStrList, .vStrList l => .ok (f.name, .vStrList l)
      | _, _ => .error (f.name ++ ": input has wrong type")

/-- `Model(**payload)`: every declared field validates (first failure
reported); the resulting model instance carries exactly the declared fields,
in declaration order. -/
def validateModel (fields : List FieldSpec) (p : Doc) : Except String Doc :=
  match fields with
  | [] => .ok []
  | f :: rest =>
      match validateField p f with
      | .error e => .error e
      | .ok kv =>
          match validateModel rest p with
          | .error e => .error e
          | .ok tl => .ok (kv :: tl)

def Trust : List FieldSpec :=
  [⟨"name", .fStr, true⟩,
   ⟨"purpose", .fStr, false⟩,
   ⟨"inception_date", .fDate, false⟩,
   ⟨"registration_number", .fStr, false⟩]

def Beneficiary : List FieldSpec :=
  [⟨"full_name", .fStr, true⟩,
   ⟨"email", .fStr, false⟩,
   ⟨"phone", .fStr, false⟩,
   ⟨"relation", .fStr, false⟩,
   ⟨"allocation_percent", .fFloat (some 0) (some 100), false⟩,
   ⟨"notes", .fStr, false⟩]

def Trustee : List FieldSpec :=
  [⟨"full_name", .fStr, true⟩,
   ⟨"role", .fStr, true⟩,
   ⟨"email", .fStr, false⟩,
   ⟨"phone", .fStr, false⟩]

def Asset : List FieldSpec :=
  [⟨"title", .fStr, true⟩,
   ⟨"category", .fStr, true⟩,
   ⟨"value", .fFloat (some 0) none, false⟩,
   ⟨"owner", .fStr, false⟩,
   ⟨"notes", .fStr, false⟩]

def Distribution : List FieldSpec :=
  [⟨"beneficiary_name", .fStr, true⟩,
   ⟨"amount", .fFloat (some 0) none, true⟩,
   ⟨"schedule", .fStr, true⟩,
   ⟨"purpose", .fStr, false⟩]

def NGO : List FieldSpec :=
  [⟨"name", .fStr, true⟩,
   ⟨"registration_id", .fStr, false⟩,
   ⟨"email", .fStr, false⟩,
   ⟨"phone", .fStr, false⟩,
   ⟨"focus_areas", .fStrList, false⟩]

def Donation : List FieldSpec :=
  [⟨"ngo_name", .fStr, true⟩,
   ⟨"amount", .fFloat (some 0) none, true⟩,
   ⟨"date_given", .fDate, false⟩,
   ⟨"source_asset", .fStr, false⟩,
   ⟨"notes", .fStr, false⟩]

def ComplianceDocument : List FieldSpec :=
  [⟨"title", .fStr, true⟩,
   ⟨"doc_type", .fStr, true⟩,
   ⟨"status", .fStr, true⟩,
   ⟨"due_date", .fDate, false⟩,
   ⟨"link", .fStr, false⟩]

/-- `COLLECTION_MODELS` of `main.py`: collection names mapped to their
validation models, in source order. -/
def COLLECTION_MODELS : List (String × List FieldSpec) :=
  [("trust", Trust),
   ("beneficiary", Beneficiary),
   ("trustee", Trustee),
   ("asset", Asset),
   ("distribution", Distribution),
   ("ngo", NGO),
   ("donation", Donation),
   ("compliancedocument", ComplianceDocument)]

/-- The recognized collection names, in registration order. -/
def collectionNames : List String := COLLECTION_MODELS.map Prod.fst

/-! ### Persistence collaborator (`database.py`, modelled from the spec)

`database.py` is imported by `main.py` but is not among the sources; per the
spec (§6) it is the external persistence collaborator. -/

/-- The observable state of the persistence collaborator: `fetch` is the
stored content it serves for each collection name, `inserts` the ordered log
of insertions it has been asked to perform. -/
structure DB where
  fetch : String → List Doc
  inserts : List (String × Doc)

/-- Modelled from the spec: `database.get_documents` is not under `src/`.
Per §6 the collaborator must "fetch up to N records from named collection,
optionally filtered → return ordered sequence of records"; with no limit all
records are returned (the summary's empty filter argument is the absence of
filtering and is not modelled further). -/
def get_documents (db : DB) (coll : String) (lim : Option Nat) : List Doc :=
  match lim with
  | none => db.fetch coll
  | some n => (db.fetch coll).take n

/-- Modelled from the spec: `database.create_document` is not under `src/`.
Per §6 the collaborator must "insert one record into named collection →
return generated identifier"; the generated identifier is modelled as the
rendering of a fresh insert counter. -/
def create_document (db : DB) (coll : String) (obj : Doc) : String × DB :=
  (toString db.inserts.length,
   { db with inserts := db.inserts ++ [(coll, obj)] })

/-! ### Request handlers (`main.py`) -/

/-- `fastapi.HTTPException(status_code, detail)`. -/
structure HTTPErr where
  status : Nat
  detail : String
deriving DecidableEq, Repr

/-- The body returned by a successful create: `{"id": ..., "status": "created"}`. -/
structure CreateResp where
  id : String
  status : String
deriving DecidableEq, Repr

/-- The loop body of `list_documents`: `if "_id" in d: d["_id"] = str(d["_id"])`. -/
def normalizeId (d : Doc) : Doc :=
  match List.lookup "_id" d with
  | some v => setKey d "_id" (.vStr (pyStr v))
  | none => d

/-- `GET /api/{collection}` (`list_documents`): lowercase the collection
name, 404 when it is not a registered collection, otherwise fetch up to
`limit` records (query default 50) and replace any `_id` field by its string
rendering.  The JSON wrapper `{"items": ...}` is elided. -/
def list_documents (db : DB) (collection : String) (limit : Option Nat := some 50) :
    Except HTTPErr (List Doc) :=
  let c := pyLower collection
  match List.lookup c COLLECTION_MODELS with
  | none => .error ⟨404, "Unknown collection"⟩
  | some _ => .ok ((get_documents db c limit).map normalizeId)

/-- `POST /api/{collection}` (`create_document_endpoint`): lowercase the
collection name, 404 when unregistered, validate the payload against the
collection's model (422 with the underlying message on failure), then hand
the validated record to the collaborator and return the new identifier. -/
def create_document_endpoint (db : DB) (collection : String) (payload : Doc) :
    Except HTTPErr CreateResp × DB :=
  let c := pyLower collection
  match List.lookup c COLLECTION_MODELS with
  | none => (.error ⟨404, "Unknown collection"⟩, db)
  | some model =>
      match validateModel model payload with
      | .error e => (.error ⟨422, "Validation error: " ++ e⟩, db)
      | .ok obj =>
          let (new_id, db') := create_document db c obj
          (.ok ⟨new_id, "created"⟩, db')

/-- The summary response body. -/
structure Summary where
  trusts : Nat
  beneficiaries : Nat
  assets : Nat
  ngos : Nat
  donations : Nat
  total_donation : ℚ
  total_asset_value : ℚ
deriving DecidableEq, Repr

/-- `sum(float(d.get(key, 0) or 0) for d in docs)`: left-to-right over the
documents, raising at the first non-convertible value. -/
def sumFloats (key : String) : List Doc → Except String ℚ
  | [] => .ok 0
  | d :: rest => do
      let x ← pyFloat (pyOrZero (dGet d key (.vNum 0)))
      let r ← sumFloats key rest
      .ok (x + r)

/-- `GET /api/summary` handler body (`get_summary`): fetch all records of the
five dashboard kinds, sum donation amounts and asset values with
null-coalescing, and return the counts and sums; any exception becomes a 500
carrying its message. -/
def get_summary (db : DB) : Except HTTPErr Summary :=
  let trusts := get_documents db "trust" none
  let beneficiaries := get_documents db "beneficiary" none
  let assets := get_documents db "asset" none
  let ngos := get_documents db "ngo" none
  let donations := get_documents db "donation" none
  match sumFloats "amount" donations with
  | .error e => .error ⟨500, e⟩
  | .ok total_donation =>
      match sumFloats "value" assets with
      | .error e => .error ⟨500, e⟩
      | .ok asset_value =>
          .ok ⟨trusts.length, beneficiaries.length, assets.length,
               ngos.length, donations.length, total_donation, asset_value⟩

/-- `GET /schema` (`get_schema`): its own literal mapping of the eight kind
names to each model's machine-readable description
(`model_json_schema()`, embedded as the field-declaration list). -/
def get_schema : List (String × List FieldSpec) :=
  [("trust", Trust),
   ("beneficiary", Beneficiary),
   ("trustee", Trustee),
   ("asset", Asset),
   ("distribution", Distribution),
   ("ngo", NGO),
   ("donation", Donation),
   ("compliancedocument", ComplianceDocument)]

/-! ### Diagnostic endpoint (`GET /test`) -/

/-- The possible outcomes of `from database import db` followed by use of
`db` inside `test_database`'s `try` block: the import may fail with
`ImportError` or another exception, `db` may be `None`, or `db` is an object
(optionally exposing a `name`) whose `list_collection_names()` either
returns or raises. -/
inductive DBProbe where
  | importError
  | importException (msg : String)
  | dbNone
  | dbSome (name : Option String) (listRes : Except String (List String))
deriving Repr

/-- Whether `DATABASE_URL` / `DATABASE_NAME` are set in the environment. -/
structure Env where
  database_url_set : Bool
  database_name_set : Bool
deriving DecidableEq, Repr

/-- The `GET /test` response body. -/
structure TestResponse where
  backend : String
  database : String
  database_url : Option String
  database_name : Option String
  connection_status : String
  collections : List String
deriving DecidableEq, Repr

/-- `GET /test` (`test_database`): builds a status report, catching every
collaborator failure and describing it in the `database` string
(exception messages truncated to 50 characters); the `database_url` /
`database_name` fields are finally overwritten from the environment flags. -/
def test_database (probe : DBProbe) (env : Env) : TestResponse :=
  let r : TestResponse :=
    ⟨"✅ Running", "❌ Not Available", none, none, "Not Connected", []⟩
  let r :=
    match probe with
    | .importError =>
        { r with database := "❌ Database module not found (run enable-database first)" }
    | .importException msg =>
        { r with database := "❌ Error: " ++ (msg.take 50) }
    | .dbNone =>
        { r with database := "⚠️  Available but not initialized" }
    | .dbSome name listRes =>
        let r := { r with
          database := "✅ Available",
          database_url := some "✅ Configured",
          database_name := some (name.getD "✅ Connected"),
          connection_status := "Connected" }
        match listRes with
        | .ok cols =>
            { r with collections := cols.take 10,
                     database := "✅ Connected & Working" }
        | .error e =>
            { r with database := "⚠️  Connected but Error: " ++ (e.take 50) }
  { r with
    database_url := some (if env.database_url_set then "✅ Set" else "❌ Not Set"),
    database_name := some (if env.database_name_set then "✅ Set" else "❌ Not Set") }

/-- The `GET /test` route: the handler body is total — no branch raises —
so the route always answers 200 with the report. -/
def test_endpoint (probe : DBProbe) (env : Env) : Except HTTPErr TestResponse :=
  .ok (test_database probe env)

/-! ### Route table and dispatch

FastAPI (Starlette) matches routes in registration order and takes the first
full match; the decorators of `main.py` register the routes in source
order. -/

inductive Method where
  | get
  | post
deriving DecidableEq, Repr

/-- One segment of a route pattern: a literal or a `{param}` capture. -/
inductive Seg where
  | lit (s : String)
  | capture (name : String)
deriving DecidableEq, Repr

/-- The handlers of `main.py`. -/
inductive Endpoint where
  | readRoot
  | hello
  | testDb
  | schemaIntrospection
  | listDocs
  | createDoc
  | summaryKpis
deriving DecidableEq, Repr

/-- The application's route table, in the registration (source) order of the
decorators in `main.py`. -/
def appRoutes : List (Method × List Seg × Endpoint) :=
  [(.get, [], .readRoot),
   (.get, [.lit "api", .lit "hello"], .hello),
   (.get, [.lit "test"], .testDb),
   (.get, [.lit "schema"], .schemaIntrospection),
   (.get, [.lit "api", .capture "collection"], .listDocs),
   (.post, [.lit "api", .capture "collection"], .createDoc),
   (.get, [.lit "api", .lit "summary"], .summaryKpis)]

/-- Match a route pattern against a path (as segments), returning the
captured parameters on success. -/
def matchSegs : List Seg → List String → Option (List (String × String))
  | [], [] => some []
  | .lit s :: ps, x :: xs => if s = x then matchSegs ps xs else none
  | .capture n :: ps, x :: xs => (matchSegs ps xs).map (fun ps' => (n, x) :: ps')
  | _, _ => none

/-- First full match in a route table (Starlette's resolution rule). -/
def resolveRoute (m : Method) (path : List String) :
    List (Method × List Seg × Endpoint) → Option (Endpoint × List (String × String))
  | [] => none
  | (m', pat, ep) :: rest =>
      if m' = m then
        match matchSegs pat path with
        | some params => some (ep, params)
        | none => resolveRoute m path rest
      else resolveRoute m path rest

/-- The observable outcome of dispatching a GET request, by handler kind. -/
inductive GetDispatch where
  | fromList (r : Except HTTPErr (List Doc))
  | fromSummary (r : Except HTTPErr Summary)
  | fromOther
  | notRouted
deriving Repr

/-- Dispatch a GET request against the application's route table with
default query parameters. -/
def dispatch_get (db : DB) (path : List String) : GetDispatch :=
  match resolveRoute .get path appRoutes with
  | some (.listDocs, params) =>
      .fromList (list_documents db ((List.lookup "collection" params).getD "") (some 50))
  | some (.summaryKpis, _) => .fromSummary (get_summary db)
  | some (_, _) => .fromOther
  | none => .notRouted

/-! ### Auxiliary definitions for the statements -/

/-- Whether a handler outcome is a success (HTTP 200). -/
def isSuccess {α : Type} : Except HTTPErr α → Bool
  | .ok _ => true
  | .error _ => false

/-- The HTTP error status of a handler outcome, `none` on success. -/
def statusOf {α : Type} : Except HTTPErr α → Option Nat
  | .ok _ => none
  | .error e => some e.status

/-- A payload restricted to a given set of keys (used to state that
validation ignores everything outside the declared fields). -/
def restrictKeys (p : Doc) (names : List String) : Doc :=
  p.filter (fun kv => names.contains kv.1)

/-- The amount a document contributes to a summary sum as the claim states
it: the numeric value of the field when present, 0 when the field is missing
or null. -/
def numericAmount (key : String) (d : Doc) : ℚ :=
  match List.lookup key d with
  | some (.vNum q) => q
  | _ => 0

/-- The field at `key` is absent, null or numeric (the shapes the claim
speaks about). -/
def fieldNumOrMissing (key : String) (d : Doc) : Bool :=
  match List.lookup key d with
  | none => true
  | some .vNull => true
  | some (.vNum _) => true
  | some _ => false

/-- How one listed record relates to the fetched record it came from: a
record without `_id` is returned unchanged; a record with `_id` keeps every
other field and its key sequence, with `_id` replaced by its string
rendering. -/
def recordRel (d d' : Doc) : Prop :=
  (List.lookup "_id" d = none → d' = d) ∧
  (∀ v, List.lookup "_id" d = some v →
     List.lookup "_id" d' = some (.vStr (pyStr v)) ∧
     (∀ k, k ≠ "_id" → List.lookup k d' = List.lookup k d) ∧
     d'.map Prod.fst = d.map Prod.fst)

/-- A collaborator with no stored documents and an empty insert log. -/
def emptyDB : DB := ⟨fun _ => [], []⟩

/-- A collaborator holding five NGO records (for the limit witness). -/
def dbFive : DB :=
  ⟨fun c => if c = "ngo" then
      [[("name", .vStr "N1")], [("name", .vStr "N2")], [("name", .vStr "N3")],
       [("name", .vStr "N4")], [("name", .vStr "N5")]]
    else [], []⟩

/-- A collaborator holding trust records with and without an `_id` (for the
listing witness). -/
def dbIds : DB :=
  ⟨fun c => if c = "trust" then
      [[("_id", .vId "66f0aa"), ("name", .vStr "T1")], [("name", .vStr "T2")]]
    else [], []⟩

/-- A collaborator holding donations (one missing its amount) and assets
(one with a null value), for the summary witness. -/
def dbSummary : DB :=
  ⟨fun c =>
    if c = "donation" then
      [[("ngo_name", .vStr "A"), ("amount", .vNum 100)],
       [("ngo_name", .vStr "B"), ("amount", .vNum 50)],
       [("ngo_name", .vStr "C")]]
    else if c = "asset" then
      [[("title", .vStr "H"), ("value", .vNull)],
       [("title", .vStr "K"), ("value", .vNum 7)]]
    else [], []⟩

/-! ## Association-list lemmas -/

theorem lookup_isSome_iff {β : Type} (a : String) (l : List (String × β)) :
    (List.lookup a l).isSome = true ↔ a ∈ l.map Prod.fst := by
  induction l with
  | nil => simp
  | cons hd tl ih =>
      obtain ⟨k, v⟩ := hd
      rw [List.lookup_cons]
      by_cases h : a = k
      · simp [h]
      · have hb : (a == k) = false := beq_false_of_ne h
        simp [hb, ih, h]

theorem lookup_mem_keys {β : Type} {a : String} {l : List (String × β)} {v : β}
    (h : List.lookup a l = some v) : a ∈ l.map Prod.fst :=
  (lookup_isSome_iff a l).1 (by simp [h])

theorem lookup_setKey_self (d : Doc) (k : String) (v : Value) :
    List.lookup k (setKey d k v) = some v := by
  induction d with
  | nil => simp [setKey]
  | cons hd tl ih =>
      obtain ⟨k', v'⟩ := hd
      by_cases h : k' = k
      · simp [setKey, h]
      · have hb : (k == k') = false := beq_false_of_ne (fun he => h he.symm)
        simp [setKey, h, List.lookup_cons, hb, ih]

theorem lookup_setKey_ne (d : Doc) (k k' : String) (v : Value) (h : k' ≠ k) :
    List.lookup k' (setKey d k v) = List.lookup k' d := by
  have hb : (k' == k) = false := beq_false_of_ne h
  induction d with
  | nil => simp [setKey, List.lookup_cons, hb]
  | cons hd tl ih =>
      obtain ⟨k₀, v₀⟩ := hd
      by_cases h₀ : k₀ = k
      · subst h₀
        simp [setKey, List.lookup_cons, hb]
      · simp [setKey, h₀, List.lookup_cons, ih]

theorem keys_setKey_of_mem (d : Doc) (k : String) (v : Value)
    (h : k ∈ d.map Prod.fst) :
    (setKey d k v).map Prod.fst = d.map Prod.fst := by
  induction d with
  | nil => simp at h
  | cons hd tl ih =>
      obtain ⟨k₀, v₀⟩ := hd
      by_cases h₀ : k₀ = k
      · simp [setKey, h₀]
      · have h' : k = k₀ ∨ ∃ x, (k, x) ∈ tl := by simpa using h
        have : k ∈ tl.map Prod.fst := by
          rcases h' with h₁ | ⟨x, hx⟩
          · exact absurd h₁.symm h₀
          · exact List.mem_map.2 ⟨(k, x), hx, rfl⟩
        simp [setKey, h₀, ih this]

/-! ## Claim theorems -/

/-- C1: the route `/api/{collection}` is registered before `/api/summary`,
and Starlette takes the first full match, so `GET /api/summary` is handled
by `list_documents` with `collection = "summary"` — an unrecognized
collection — and answers 404, for every collaborator state; the dedicated
summary route's pattern does match the path, but is shadowed. -/
theorem summary_route_shadowed (db : DB) :
    dispatch_get db ["api", "summary"] =
      .fromList (.error ⟨404, "Unknown collection"⟩) ∧
    matchSegs [.lit "api", .lit "summary"] ["api", "summary"] = some [] := by
  exact ⟨rfl, rfl⟩

/-- C4: creating an Asset whose `value` is −1 and a Beneficiary whose
`allocation_percent` is 150 both fail with a 422 whose message names the
violated numeric bound, and leave the collaborator untouched. -/
theorem create_rejects_bound_violations :
    create_document_endpoint emptyDB "asset"
        [("title", .vStr "House"), ("category", .vStr "Real Estate"),
         ("value", .vNum (-1))] =
      (.error ⟨422,
        "Validation error: value: input should be greater than or equal to 0"⟩,
       emptyDB) ∧
    create_document_endpoint emptyDB "beneficiary"
        [("full_name", .vStr "Jane"), ("allocation_percent", .vNum 150)] =
      (.error ⟨422,
        "Validation error: allocation_percent: input should be less than or equal to 100"⟩,
       emptyDB) := by
  exact ⟨rfl, rfl⟩

/-- C7: the schema introspection mapping carries exactly the eight
recognized kind names, the same key sequence as the `COLLECTION_MODELS`
table the List/Create lookup resolves against. -/
theorem schema_keys_exactly_collections :
    get_schema.map Prod.fst = collectionNames ∧
    collectionNames =
      ["trust", "beneficiary", "trustee", "asset", "distribution", "ngo",
       "donation", "compliancedocument"] := by
  exact ⟨rfl, rfl⟩

/-- C5: for a recognized collection, Create decides validation first: a
validation failure yields the 422 and hands nothing to the collaborator
(the state, insert log included, is returned untouched); a validation
success appends exactly one insert of the validated record to the log and
returns the collaborator's newly assigned identifier. -/
theorem create_validates_before_insert (db : DB) (collection : String)
    (p : Doc) (model : List FieldSpec)
    (hm : List.lookup (pyLower collection) COLLECTION_MODELS = some model) :
    (∀ e, validateModel model p = .error e →
       create_document_endpoint db collection p =
         (.error ⟨422, "Validation error: " ++ e⟩, db)) ∧
    (∀ obj, validateModel model p = .ok obj →
       create_document_endpoint db collection p =
         (.ok ⟨toString db.inserts.length, "created"⟩,
          { db with inserts := db.inserts ++ [(pyLower collection, obj)] })) := by
  constructor
  · intro e he
    simp only [create_document_endpoint, hm, he]
  · intro obj ho
    simp only [create_document_endpoint, hm, ho, create_document]

/-- Witness for C5 at concrete inputs: an invalid Asset leaves the empty
collaborator untouched, a valid Trustee is inserted once as validated and
gets identifier "0". -/
theorem create_validates_before_insert_witness :
    create_document_endpoint emptyDB "asset"
        [("title", .vStr "House"), ("value", .vNum 1)] =
      (.error ⟨422, "Validation error: category: field required"⟩, emptyDB) ∧
    create_document_endpoint emptyDB "Trustee"
        [("full_name", .vStr "Ann"), ("role", .vStr "Primary")] =
      (.ok ⟨"0", "created"⟩,
       { emptyDB with inserts :=
          [("trustee",
            [("full_name", .vStr "Ann"), ("role", .vStr "Primary"),
             ("email", .vNull), ("phone", .vNull)])] }) := by
  constructor
  · exact (create_validates_before_insert emptyDB "asset" _ Asset rfl).1 _ rfl
  · exact (create_validates_before_insert emptyDB "Trustee" _ Trustee rfl).2 _ rfl

theorem lookup_restrictKeys (p : Doc) (names : List String) (k : String)
    (hk : names.contains k = true) :
    List.lookup k (restrictKeys p names) = List.lookup k p := by
  induction p with
  | nil => rfl
  | cons hd tl ih =>
      obtain ⟨k₀, v₀⟩ := hd
      by_cases h : k = k₀
      · subst h
        simp only [restrictKeys, List.filter_cons]
        rw [if_pos (by simpa using hk)]
        simp [List.lookup_cons]
      · have hb : (k == k₀) = false := beq_false_of_ne h
        simp only [restrictKeys, List.filter_cons]
        by_cases hk₀ : names.contains k₀ = true
        · rw [if_pos (by simpa using hk₀)]
          simp only [List.lookup_cons, hb]
          exact ih
        · rw [if_neg (by simpa using hk₀)]
          simp only [restrictKeys] at ih
          rw [ih]
          simp [List.lookup_cons, hb]

theorem validateField_restrict (p : Doc) (names : List String) (f : FieldSpec)
    (hf : names.contains f.name = true) :
    validateField (restrictKeys p names) f = validateField p f := by
  unfold validateField
  rw [lookup_restrictKeys p names f.name hf]

theorem validateModel_restrict (fields : List FieldSpec) (p : Doc)
    (names : List String) (h : ∀ f ∈ fields, names.contains f.name = true) :
    validateModel fields (restrictKeys p names) = validateModel fields p := by
  induction fields with
  | nil => rfl
  | cons f fs ih =>
      unfold validateModel
      rw [validateField_restrict p names f (h f (by simp)),
          ih (fun g hg => h g (List.mem_cons_of_mem f hg))]

theorem okPairFst {kv : String × Value} {a : String} {x : Value}
    (h : (Except.ok (a, x) : Except String (String × Value)) = .ok kv) :
    kv.1 = a := by
  cases h
  rfl

theorem validateField_fst (p : Doc) (f : FieldSpec) (kv : String × Value)
    (h : validateField p f = .ok kv) : kv.1 = f.name := by
  unfold validateField at h
  split at h <;>
    first
    | exact okPairFst h
    | (split at h <;>
        first
        | exact okPairFst h
        | (split at h <;> first | exact okPairFst h | simp_all)
        | simp_all)

theorem validateModel_keys (fields : List FieldSpec) (p : Doc) (r : Doc)
    (h : validateModel fields p = .ok r) :
    r.map Prod.fst = fields.map FieldSpec.name := by
  induction fields generalizing r with
  | nil =>
      unfold validateModel at h
      cases h
      rfl
  | cons f fs ih =>
      unfold validateModel at h
      cases hf : validateField p f with
      | error e => rw [hf] at h; simp at h
      | ok kv =>
          rw [hf] at h
          cases hr : validateModel fs p with
          | error e => rw [hr] at h; simp at h
          | ok tl =>
              rw [hr] at h
              cases h
              simp [validateField_fst p f kv hf, ih tl hr]

/-- C10: validation never looks at undeclared payload keys
(`extra='ignore'`): whenever the payload restricted to the declared fields
validates, Create on the full payload (extra keys included) succeeds, and
the record handed to the collaborator carries exactly the declared field
names — the extra keys are dropped, not rejected and not stored. -/
theorem create_drops_unknown_keys (db : DB) (collection : String) (p : Doc)
    (model : List FieldSpec) (r : Doc)
    (hm : List.lookup (pyLower collection) COLLECTION_MODELS = some model)
    (hv : validateModel model (restrictKeys p (model.map FieldSpec.name)) = .ok r) :
    create_document_endpoint db collection p =
      (.ok ⟨toString db.inserts.length, "created"⟩,
       { db with inserts := db.inserts ++ [(pyLower collection, r)] }) ∧
    r.map Prod.fst = model.map FieldSpec.name := by
  have hnames : ∀ f ∈ model, (model.map FieldSpec.name).contains f.name = true := by
    intro f hf
    have : f.name ∈ model.map FieldSpec.name := List.mem_map.2 ⟨f, hf, rfl⟩
    simpa [List.elem_iff] using this
  have hv' : validateModel model p = .ok r := by
    rw [← validateModel_restrict model p (model.map FieldSpec.name) hnames]
    exact hv
  constructor
  · simp only [create_document_endpoint, hm, hv', create_document]
  · exact validateModel_keys model
      (restrictKeys p (model.map FieldSpec.name)) r hv

/-- Witness for C10: a Trust payload with the undeclared key `"hacked"`
passes validation and is stored with only the four declared fields. -/
theorem create_drops_unknown_keys_witness :
    create_document_endpoint emptyDB "trust"
        [("name", .vStr "Smith Family Trust"), ("hacked", .vNum 5)] =
      (.ok ⟨"0", "created"⟩,
       { emptyDB with inserts :=
          [("trust",
            [("name", .vStr "Smith Family Trust"), ("purpose", .vNull),
             ("inception_date", .vNull), ("registration_number", .vNull)])] }) ∧
    ([("name", Value.vStr "Smith Family Trust"), ("purpose", Value.vNull),
      ("inception_date", Value.vNull),
      ("registration_number", Value.vNull)] : Doc).map Prod.fst =
      Trust.map FieldSpec.name :=
  create_drops_unknown_keys emptyDB "trust"
    [("name", .vStr "Smith Family Trust"), ("hacked", .vNum 5)] Trust _ rfl rfl

/-- C2: for every request string, List and Create agree with the
case-insensitive collection lookup: when the lowercased string is one of
the eight registered names both resolve (List answers 200, Create never
answers 404); otherwise both answer 404 `Unknown collection` — List's
answer is the same for every collaborator state and Create returns the
collaborator untouched, so the collaborator is never consulted. -/
theorem collection_routing (s : String) (db : DB) (lim : Option Nat) (p : Doc) :
    (pyLower s ∈ collectionNames →
       isSuccess (list_documents db s lim) = true ∧
       statusOf (create_document_endpoint db s p).1 ≠ some 404) ∧
    (pyLower s ∉ collectionNames →
       list_documents db s lim = .error ⟨404, "Unknown collection"⟩ ∧
       create_document_endpoint db s p = (.error ⟨404, "Unknown collection"⟩, db)) := by
  by_cases hmem : pyLower s ∈ collectionNames
  · have hsome : (List.lookup (pyLower s) COLLECTION_MODELS).isSome = true :=
      (lookup_isSome_iff (pyLower s) COLLECTION_MODELS).2 hmem
    obtain ⟨model, hm⟩ := Option.isSome_iff_exists.1 hsome
    refine ⟨fun _ => ⟨?_, ?_⟩, fun hn => absurd hmem hn⟩
    · simp [list_documents, hm, isSuccess]
    · simp only [create_document_endpoint, hm]
      cases hval : validateModel model p with
      | error e => simp [statusOf]
      | ok obj => simp [statusOf, create_document]
  · have hnone : List.lookup (pyLower s) COLLECTION_MODELS = none := by
      cases hl : List.lookup (pyLower s) COLLECTION_MODELS with
      | none => rfl
      | some m =>
          exact absurd ((lookup_isSome_iff (pyLower s) COLLECTION_MODELS).1
            (by simp [hl])) hmem
    refine ⟨fun hmem' => absurd hmem' hmem, fun _ => ⟨?_, ?_⟩⟩
    · simp [list_documents, hnone]
    · simp [create_document_endpoint, hnone]

/-- Witness for C2: the mixed-case `"TRUST"` resolves for both operations;
the unrecognized `"wallet"` is refused by both with 404 and the empty
collaborator is returned unchanged. -/
theorem collection_routing_witness :
    isSuccess (list_documents emptyDB "TRUST" (some 50)) = true ∧
    statusOf (create_document_endpoint emptyDB "TRUST"
      [("name", .vStr "T")]).1 ≠ some 404 ∧
    list_documents emptyDB "wallet" (some 50) =
      .error ⟨404, "Unknown collection"⟩ ∧
    create_document_endpoint emptyDB "wallet" [("name", .vStr "T")] =
      (.error ⟨404, "Unknown collection"⟩, emptyDB) := by
  refine ⟨?_, ?_, ?_, ?_⟩
  · exact ((collection_routing "TRUST" emptyDB (some 50)
      [("name", .vStr "T")]).1 (by decide)).1
  · exact ((collection_routing "TRUST" emptyDB (some 50)
      [("name", .vStr "T")]).1 (by decide)).2
  · exact ((collection_routing "wallet" emptyDB (some 50)
      [("name", .vStr "T")]).2 (by decide)).1
  · exact ((collection_routing "wallet" emptyDB (some 50)
      [("name", .vStr "T")]).2 (by decide)).2

/-- C8: for a recognized collection, List passes `limit` through to the
collaborator, which serves at most that many records (so the listing has
`min limit stored` records); omitting the query parameter is the same
request with the declared default of 50. -/
theorem list_respects_limit (db : DB) (c : String) (n : Nat)
    (model : List FieldSpec)
    (hm : List.lookup (pyLower c) COLLECTION_MODELS = some model) :
    (∀ items, list_documents db c (some n) = .ok items →
       items.length = min n (db.fetch (pyLower c)).length) ∧
    list_documents db c = list_documents db c (some 50) := by
  constructor
  · intro items h
    simp only [list_documents, hm] at h
    cases h
    simp [get_documents]
  · rfl

/-- Witness for C8: listing the five stored NGO records with `limit = 2`
returns exactly two records. -/
theorem list_respects_limit_witness :
    ([[("name", Value.vStr "N1")], [("name", Value.vStr "N2")]] : List Doc).length
      = min 2 (dbFive.fetch "ngo").length :=
  (list_respects_limit dbFive "ngo" 2 NGO rfl).1 _ rfl

/-- Every fetched record is related to its listed image: unchanged when it
has no `_id`, and otherwise identical in every key and every other field
with `_id` replaced by its string rendering. -/
theorem normalizeId_rel (d : Doc) : recordRel d (normalizeId d) := by
  cases h : List.lookup "_id" d with
  | none =>
      constructor
      · intro _
        simp [normalizeId, h]
      · intro v hv
        rw [h] at hv
        cases hv
  | some v =>
      constructor
      · intro h0
        rw [h] at h0
        cases h0
      · intro v' hv'
        rw [h] at hv'
        cases hv'
        have hd : normalizeId d = setKey d "_id" (.vStr (pyStr v)) := by
          simp [normalizeId, h]
        refine ⟨?_, ?_, ?_⟩
        · rw [hd]
          exact lookup_setKey_self d "_id" (.vStr (pyStr v))
        · intro k hk
          rw [hd]
          exact lookup_setKey_ne d "_id" k (.vStr (pyStr v)) hk
        · rw [hd]
          exact keys_setKey_of_mem d "_id" (.vStr (pyStr v)) (lookup_mem_keys h)

/-- C6: a successful listing returns one record per fetched record, in the
same order; a record without `_id` comes back unchanged, a record with
`_id` keeps its key sequence and every other field, with only `_id`
replaced by its string rendering. -/
theorem list_preserves_records (db : DB) (c : String) (lim : Option Nat)
    (items : List Doc) (h : list_documents db c lim = .ok items) :
    items.length = (get_documents db (pyLower c) lim).length ∧
    List.Forall₂ recordRel (get_documents db (pyLower c) lim) items := by
  cases hm : List.lookup (pyLower c) COLLECTION_MODELS with
  | none => simp only [list_documents, hm] at h; cases h
  | some model =>
      simp only [list_documents, hm] at h
      cases h
      constructor
      · simp
      · exact List.forall₂_map_right_iff.2
          (List.forall₂_same.2 (fun d _ => normalizeId_rel d))

/-- Witness for C6: the two stored trust records (one with an `_id`) come
back in order, the `_id` rendered to its string, the other record
untouched. -/
theorem list_preserves_records_witness :
    ([[("_id", Value.vStr "66f0aa"), ("name", Value.vStr "T1")],
      [("name", Value.vStr "T2")]] : List Doc).length
        = (get_documents dbIds "trust" (some 50)).length ∧
    List.Forall₂ recordRel (get_documents dbIds "trust" (some 50))
      [[("_id", Value.vStr "66f0aa"), ("name", Value.vStr "T1")],
       [("name", Value.vStr "T2")]] :=
  list_preserves_records dbIds "trust" (some 50) _ rfl

/-- When every document's field at `key` is absent, null or numeric, the
null-coalescing float sum succeeds and equals the plain sum with
missing/null read as 0. -/
theorem sumFloats_ok (key : String) (docs : List Doc)
    (h : ∀ d ∈ docs, fieldNumOrMissing key d = true) :
    sumFloats key docs = .ok ((docs.map (numericAmount key)).sum) := by
  induction docs with
  | nil => rfl
  | cons d rest ih =>
      have hd := h d (by simp)
      have hrest := ih (fun d' hd' => h d' (List.mem_cons_of_mem d hd'))
      have hterm :
          pyFloat (pyOrZero (dGet d key (.vNum 0))) = .ok (numericAmount key d) := by
        unfold fieldNumOrMissing at hd
        unfold numericAmount dGet
        cases hl : List.lookup key d with
        | none => simp [pyOrZero, isFalsy, pyFloat]
        | some v =>
            rw [hl] at hd
            cases v with
            | vNull => simp [pyOrZero, isFalsy, pyFloat]
            | vNum q =>
                by_cases hq : q = 0
                · simp [pyOrZero, isFalsy, pyFloat, hq]
                · have : (q == 0) = false := by simpa using hq
                  simp [pyOrZero, isFalsy, pyFloat, this]
            | vBool b => simp at hd
            | vStr s => simp at hd
            | vStrList l => simp at hd
            | vId s => simp at hd
      unfold sumFloats
      rw [hterm, hrest]
      rfl

/-- C3: whenever the donation amounts and asset values served by the
collaborator are numeric, null or absent, the summary succeeds; each count
is the length of the corresponding fetched list, `total_donation` is the
sum of the donations' amounts with missing/null amounts contributing 0,
and `total_asset_value` the analogous sum of the assets' values. -/
theorem summary_aggregation (db : DB)
    (hd : ∀ d ∈ db.fetch "donation", fieldNumOrMissing "amount" d = true)
    (ha : ∀ a ∈ db.fetch "asset", fieldNumOrMissing "value" a = true) :
    get_summary db = .ok
      ⟨(db.fetch "trust").length, (db.fetch "beneficiary").length,
       (db.fetch "asset").length, (db.fetch "ngo").length,
       (db.fetch "donation").length,
       ((db.fetch "donation").map (numericAmount "amount")).sum,
       ((db.fetch "asset").map (numericAmount "value")).sum⟩ := by
  unfold get_summary
  simp only [get_documents]
  rw [sumFloats_ok "amount" (db.fetch "donation") hd,
      sumFloats_ok "value" (db.fetch "asset") ha]

/-- Witness for C3: donations of 100 and 50 plus one missing its amount sum
to 150, the asset with a null value contributes 0, and every count is the
fetched length. -/
theorem summary_aggregation_witness :
    get_summary dbSummary = .ok ⟨0, 0, 2, 0, 3, 150, 7⟩ := by
  have h := summary_aggregation dbSummary (by decide) (by decide)
  rw [h]
  simp only [Except.ok.injEq, Summary.mk.injEq]
  refine ⟨by decide, by decide, by decide, by decide, by decide, ?_, ?_⟩
  · show (100 : ℚ) + (50 + (0 + 0)) = 150
    norm_num
  · show (0 : ℚ) + (7 + 0) = 7
    norm_num

/-- C9: the diagnostic endpoint is total — for every import outcome,
collaborator handle, collection-listing outcome and environment it answers
200 — and each collaborator failure is reported as the corresponding
descriptive status string in the body. -/
theorem test_endpoint_never_fails (probe : DBProbe) (env : Env) :
    test_endpoint probe env = .ok (test_database probe env) ∧
    (test_database probe env).backend = "✅ Running" ∧
    (probe = .importError →
       (test_database probe env).database =
         "❌ Database module not found (run enable-database first)") ∧
    (∀ msg, probe = .importException msg →
       (test_database probe env).database = "❌ Error: " ++ msg.take 50) ∧
    (probe = .dbNone →
       (test_database probe env).database = "⚠️  Available but not initialized") ∧
    (∀ name e, probe = .dbSome name (.error e) →
       (test_database probe env).database =
         "⚠️  Connected but Error: " ++ e.take 50) := by
  refine ⟨rfl, ?_, ?_, ?_, ?_, ?_⟩
  · cases probe with
    | importError => rfl
    | importException msg => rfl
    | dbNone => rfl
    | dbSome name listRes => cases listRes <;> rfl
  · intro h; subst h; rfl
  · intro msg h; subst h; rfl
  · intro h; subst h; rfl
  · intro name e h; subst h; rfl

/-- Witness for C9: with the database module missing and nothing
configured, the endpoint still answers 200 and reports the module as not
found. -/
theorem test_endpoint_never_fails_witness :
    test_endpoint .importError ⟨false, false⟩ =
      .ok (test_database .importError ⟨false, false⟩) ∧
    (test_database .importError ⟨false, false⟩).database =
      "❌ Database module not found (run enable-database first)" :=
  ⟨(test_endpoint_never_fails .importError ⟨false, false⟩).1,
   (test_endpoint_never_fails .importError ⟨false, false⟩).2.2.1 rfl⟩

end TrustBackend
